import Mathlib

/-!
Shallow embedding of the media-hosting relay server (server.js).

The server exposes a CDN proxy route `GET /cdn/:publicId`, an upload route,
a media list route, a delete route `DELETE /api/media/:id` and a stats route
`GET /api/stats`.  The record store is the Mongo `Media` collection; it is
modelled as a list of records.  The asset origin (Cloudinary) is modelled as
a function from the request URL to a possibly failing response; the Mongo
lookup is likewise modelled as a possibly failing function, so that the
handler's try/catch behaviour is visible.  Machine-level details (streams,
sockets) are abstracted to the byte list that is piped to the client.
-/

/-- A document of the `Media` collection (the MediaSchema of server.js,
together with the Mongo `_id` used by the delete route). -/
structure MediaRecord where
  id : String
  publicId : String
  originalName : String
  secureUrl : String
  resourceType : String
  format : Option String
  size : Nat
  uploadDate : Nat
deriving DecidableEq, Repr

/-- The record store state: the documents of the `Media` collection. -/
abbrev MediaStore := List MediaRecord

/-- `Media.findOne (\x7b publicId \x7d)`: first document whose `publicId`
field equals the given identifier. -/
def findByIdentifier (store : MediaStore) (pid : String) : Option MediaRecord :=
  store.find? (fun m => m.publicId == pid)

/-- `Media.findById (id)`: first document whose `_id` equals the given id. -/
def findById (store : MediaStore) (id : String) : Option MediaRecord :=
  store.find? (fun m => m.id == id)

/-! ## CDN proxy route: URL construction (server.js lines 62-77) -/

/-- The width directives pushed by `if (w) transformations.push(w_...)`:
the directive is pushed exactly when `w` is present and truthy (a present
empty string is falsy in JavaScript and pushes nothing). -/
def widthDirectives (w : Option String) : List String :=
  match w with
  | some v => if v = "" then [] else ["w_" ++ v]
  | none => []

/-- The quality value from the destructuring `q = 'auto'`: the default
applies exactly when the parameter is absent (undefined). -/
def qualityValue (q : Option String) : String :=
  q.getD "auto"

/-- The format value from `f || 'auto'`: the default applies when the
parameter is absent or the empty string (both falsy). -/
def formatValue (f : Option String) : String :=
  match f with
  | some v => if v = "" then "auto" else v
  | none => "auto"

/-- The `transformations` array built on lines 72-75: width directive when
truthy, then the quality directive, then the format directive. -/
def transformations (w q f : Option String) : List String :=
  widthDirectives w ++ ["q_" ++ qualityValue q, "f_" ++ formatValue f]

/-- `Array.prototype.join(',')` on a list of strings. -/
def joinComma : List String → String
  | [] => ""
  | [x] => x
  | x :: y :: xs => x ++ "," ++ joinComma (y :: xs)

/-- The transform segment `transformations.join(',')` of the upstream URL. -/
def transformSegment (w q f : Option String) : String :=
  joinComma (transformations w q f)

/-- The `baseUrl` of lines 68-69: origin root plus the resource-kind
dependent upload path segment. -/
def cdnBaseUrl (cloudName : String) (isVideo : Bool) : String :=
  "https://res.cloudinary.com/" ++ cloudName
    ++ (if isVideo then "/video/upload/" else "/image/upload/")

/-- The `fullUrl` of line 77. -/
def cdnFullUrl (cloudName : String) (isVideo : Bool) (pid : String)
    (w q f : Option String) : String :=
  cdnBaseUrl cloudName isVideo ++ (transformSegment w q f ++ ("/" ++ pid))

/-! ## CDN proxy route: handler (server.js lines 60-93) -/

/-- A record-store lookup as used by the handler; it may fail (a rejected
Mongo promise), which the surrounding try/catch turns into a 404. -/
abbrev StoreLookup := String → Except String (Option MediaRecord)

/-- The lookup backed by a concrete store state, which never fails. -/
def storeLookup (store : MediaStore) : StoreLookup :=
  fun pid => Except.ok (findByIdentifier store pid)

/-- JavaScript `s.startsWith(p)`: the characters of `p` are an initial
segment of the characters of `s`. -/
def strStartsWith (s p : String) : Bool :=
  p.data.isPrefixOf s.data

/-- Line 66: `isVideo = publicId.startsWith('uploadsx/') && await
Media.findOne(...).then(m => m?.resourceType === 'video')`.  The `&&`
short-circuits, so the store is consulted only when the prefix matches;
a failing lookup propagates as an exception. -/
def resolveIsVideo (lookup : StoreLookup) (pid : String) : Except String Bool :=
  if strStartsWith pid "uploadsx/" then
    match lookup pid with
    | Except.error e => Except.error e
    | Except.ok m? =>
        Except.ok (match m? with
          | some m => m.resourceType == "video"
          | none => false)
  else
    Except.ok false

/-- The upstream URL the handler fetches, as a function of the lookup
collaborator: resolve the kind, then build `fullUrl`. -/
def buildUpstreamUrl (cloudName : String) (lookup : StoreLookup) (pid : String)
    (w q f : Option String) : Except String String :=
  match resolveIsVideo lookup pid with
  | Except.error e => Except.error e
  | Except.ok isVideo => Except.ok (cdnFullUrl cloudName isVideo pid w q f)

/-- An upstream (Cloudinary) HTTP response: status, the value of the
content-type header when present, and the body bytes. -/
structure UpstreamResponse where
  status : Nat
  contentType : Option String
  body : List Nat
deriving DecidableEq, Repr

/-- `response.ok` of node-fetch: status in the 200-299 range. -/
def responseOk (r : UpstreamResponse) : Bool :=
  decide (200 ≤ r.status) && decide (r.status < 300)

/-- The asset origin as seen by the handler: a GET of a URL that either
yields a response or throws (network failure). -/
abbrev Fetcher := String → Except String UpstreamResponse

/-- Line 83: `response.headers.get('content-type') || (isVideo ?
'video/mp4' : 'image/jpeg')`.  `headers.get` yields null when the header
is absent; an empty header value is falsy and also takes the fallback. -/
def chooseContentType (header : Option String) (isVideo : Bool) : String :=
  match header with
  | some c => if c = "" then (if isVideo then "video/mp4" else "image/jpeg") else c
  | none => if isVideo then "video/mp4" else "image/jpeg"

/-- The outcome of one CDN proxy request: either a streamed success with
the three headers set on lines 84-86 and the piped body bytes, or an error
response with a status and plain-text body. -/
inductive CdnResult where
  | success (contentType cacheControl allowOrigin : String) (body : List Nat)
  | failure (status : Nat) (body : String)
deriving DecidableEq, Repr

/-- The fixed plain-text body of the catch branch on line 91. -/
def cdnErrorBody : String := "Fayl topilmadi yoki xatolik yuz berdi"

/-- The `Cache-Control` value set on line 85. -/
def cdnCacheControl : String := "public, max-age=31536000, immutable"

/-- The handler of `GET /cdn/:publicId` (lines 60-93): resolve the kind,
build the URL, fetch, check `response.ok`, set headers and pipe the body;
every exception of the try block, including the thrown upstream-status
error, is caught and answered with the fixed 404 response. -/
def cdnHandler (cloudName : String) (lookup : StoreLookup) (fetchFn : Fetcher)
    (pid : String) (w q f : Option String) : CdnResult :=
  match resolveIsVideo lookup pid with
  | Except.error _ => CdnResult.failure 404 cdnErrorBody
  | Except.ok isVideo =>
    match fetchFn (cdnFullUrl cloudName isVideo pid w q f) with
    | Except.error _ => CdnResult.failure 404 cdnErrorBody
    | Except.ok resp =>
      if responseOk resp then
        CdnResult.success (chooseContentType resp.contentType isVideo)
          cdnCacheControl "*" resp.body
      else
        CdnResult.failure 404 cdnErrorBody

/-! ## Delete route (server.js lines 158-174) and stats route (177-195) -/

/-- Outcome of `DELETE /api/media/:id`: the HTTP status and whether the
JSON body carried `success: true`. -/
structure DeleteResp where
  status : Nat
  success : Bool
deriving DecidableEq, Repr

/-- The `cloudinary.uploader.destroy(publicId, resource_type)` collaborator:
it may throw. -/
abbrev Destroyer := String → String → Except String Unit

/-- The handler of `DELETE /api/media/:id`: find the record by id (404 when
absent), call the asset-origin destroy (a throw is caught and answered 500
with the store untouched), then `findByIdAndDelete` removes the record. -/
def deleteMedia (store : MediaStore) (destroy : Destroyer) (id : String) :
    MediaStore × DeleteResp :=
  match findById store id with
  | none => (store, ⟨404, false⟩)
  | some m =>
    match destroy m.publicId m.resourceType with
    | Except.error _ => (store, ⟨500, false⟩)
    | Except.ok _ => (store.eraseP (fun x => x.id == id), ⟨200, true⟩)

/-- `Media.countDocuments()` of the stats route. -/
def countDocuments (store : MediaStore) : Nat :=
  store.length

/-- `Media.countDocuments (\x7b resourceType \x7d)` of the stats route. -/
def countByKind (store : MediaStore) (kind : String) : Nat :=
  (store.filter (fun m => m.resourceType == kind)).length

/-- The `$sum: '$size'` aggregate of the stats route (0 on an empty store). -/
def totalSize (store : MediaStore) : Nat :=
  (store.map (fun m => m.size)).sum

/-! ## Concrete fixtures (test doubles used by witnesses and counterexamples) -/

/-- A stored video whose identifier does not carry the `uploadsx/` folder
marker. -/
def sampleVideoRecord : MediaRecord :=
  ⟨"mid1", "vid9", "clip.mp4", "https://stored/vid9", "video", some "mp4", 900, 10⟩

/-- A store holding only `sampleVideoRecord`. -/
def sampleVideoStore : MediaStore := [sampleVideoRecord]

/-- A stored video whose identifier does carry the `uploadsx/` folder
marker. -/
def prefixedVideoRecord : MediaRecord :=
  ⟨"mid3", "uploadsx/vid9", "clip.mp4", "https://stored/uvid9", "video", some "mp4", 901, 12⟩

/-- A stored image. -/
def sampleImageRecord : MediaRecord :=
  ⟨"mid2", "pic7", "pic7.png", "https://stored/pic7", "image", some "png", 400, 11⟩

/-- A two-record store with distinct ids and distinct identifiers. -/
def twoRecordStore : MediaStore := [sampleImageRecord, sampleVideoRecord]

/-- An asset origin that answers exactly one URL and fails on every other
request; a successful handler run against it proves which URL was fetched. -/
def fetchOnly (url : String) (resp : UpstreamResponse) : Fetcher :=
  fun u => if u = url then Except.ok resp else Except.error "network"

/-- A record-store lookup that always fails (a rejected Mongo promise). -/
def failLookup : StoreLookup := fun _ => Except.error "db down"

/-- An asset-origin destroy call that always succeeds. -/
def okDestroy : Destroyer := fun _ _ => Except.ok ()

/-- An asset-origin destroy call that always throws. -/
def failDestroy : Destroyer := fun _ _ => Except.error "origin down"

/-! ## Theorems -/

/-- Helper: in a store whose records have pairwise distinct ids, a record is
determined by its id. -/
theorem record_eq_of_id_eq {store : MediaStore} {a m : MediaRecord}
    (hids : store.Pairwise (fun x y => x.id ≠ y.id))
    (ha : a ∈ store) (hm : m ∈ store) (h : a.id = m.id) : a = m := by
  by_contra hne
  exact (hids.forall (fun x y hxy => Ne.symm hxy) ha hm hne) h

/-- C1: the transform segment of the constructed upstream URL is a
comma-joined list of directives in the fixed order width, then quality, then
format; the width directive appears only when a width parameter is supplied,
while the quality and format directives are always present and default to
"auto" when the corresponding parameter is absent. -/
theorem cdn_transform_segment_order (w q f : Option String) :
    (∃ wl : List String,
        transformations w q f
          = wl ++ ["q_" ++ qualityValue q, "f_" ++ formatValue f] ∧
        (wl = [] ∨ ∃ v, w = some v ∧ wl = ["w_" ++ v])) ∧
    (w = none →
      transformations w q f = ["q_" ++ qualityValue q, "f_" ++ formatValue f]) ∧
    (q = none → qualityValue q = "auto") ∧
    (f = none → formatValue f = "auto") ∧
    transformSegment w q f = joinComma (transformations w q f) := by
  refine ⟨⟨widthDirectives w, rfl, ?_⟩, ?_, ?_, ?_, rfl⟩
  · cases w with
    | none => exact Or.inl rfl
    | some v =>
        by_cases hv : v = ""
        · exact Or.inl (by simp [widthDirectives, hv])
        · exact Or.inr ⟨v, rfl, by simp [widthDirectives, hv]⟩
  · intro hw; subst hw; rfl
  · intro hq; subst hq; rfl
  · intro hf; subst hf; rfl

/-- Witness for C1 at the concrete query `?w=400&q=60&f=webp`. -/
theorem cdn_transform_segment_order_witness :
    (∃ wl : List String,
        transformations (some "400") (some "60") (some "webp")
          = wl ++ ["q_" ++ qualityValue (some "60"), "f_" ++ formatValue (some "webp")] ∧
        (wl = [] ∨ ∃ v, (some "400" : Option String) = some v ∧ wl = ["w_" ++ v])) ∧
    ((some "400" : Option String) = none →
      transformations (some "400") (some "60") (some "webp")
        = ["q_" ++ qualityValue (some "60"), "f_" ++ formatValue (some "webp")]) ∧
    ((some "60" : Option String) = none → qualityValue (some "60") = "auto") ∧
    ((some "webp" : Option String) = none → formatValue (some "webp") = "auto") ∧
    transformSegment (some "400") (some "60") (some "webp")
      = joinComma (transformations (some "400") (some "60") (some "webp")) :=
  cdn_transform_segment_order (some "400") (some "60") (some "webp")

/-- C6: when the identifier has no matching record in the store, the handler
resolves the kind to image (isVideo is false) and the constructed upstream
URL uses the image upload-path segment. -/
theorem cdn_missing_record_defaults_image (cloudName : String) (lookup : StoreLookup)
    (pid : String) (w q f : Option String)
    (h : lookup pid = Except.ok none) :
    resolveIsVideo lookup pid = Except.ok false ∧
    ∃ rest, buildUpstreamUrl cloudName lookup pid w q f
      = Except.ok ("https://res.cloudinary.com/"
          ++ (cloudName ++ ("/image/upload/" ++ rest))) := by
  have hres : resolveIsVideo lookup pid = Except.ok false := by
    unfold resolveIsVideo
    by_cases hpre : strStartsWith pid "uploadsx/" = true
    · simp [hpre, h]
    · simp [hpre]
  refine ⟨hres, transformSegment w q f ++ ("/" ++ pid), ?_⟩
  unfold buildUpstreamUrl
  rw [hres]
  unfold cdnFullUrl cdnBaseUrl
  simp [String.append_assoc]

/-- Witness for C6 at identifier `missing` against an empty store. -/
theorem cdn_missing_record_defaults_image_witness :
    storeLookup [] "missing" = Except.ok none ∧
    (resolveIsVideo (storeLookup []) "missing" = Except.ok false ∧
      ∃ rest, buildUpstreamUrl "demo" (storeLookup []) "missing" none none none
        = Except.ok ("https://res.cloudinary.com/"
            ++ ("demo" ++ ("/image/upload/" ++ rest)))) :=
  ⟨rfl, cdn_missing_record_defaults_image "demo" (storeLookup []) "missing"
    none none none rfl⟩

/-- C7: URL construction is deterministic; two requests with identical
identifier and query parameters against the same store state and
configuration build byte-identical upstream URLs. -/
theorem cdn_url_deterministic (cloudName : String) (lookup : StoreLookup)
    (pid1 pid2 : String) (w1 q1 f1 w2 q2 f2 : Option String)
    (hp : pid1 = pid2) (hw : w1 = w2) (hq : q1 = q2) (hf : f1 = f2) :
    buildUpstreamUrl cloudName lookup pid1 w1 q1 f1
      = buildUpstreamUrl cloudName lookup pid2 w2 q2 f2 := by
  subst hp; subst hw; subst hq; subst hf; rfl

/-- Witness for C7 at a concrete repeated request. -/
theorem cdn_url_deterministic_witness :
    ("vid9" : String) = "vid9" ∧
    buildUpstreamUrl "demo" (storeLookup sampleVideoStore) "vid9" none none (some "mp4")
      = buildUpstreamUrl "demo" (storeLookup sampleVideoStore) "vid9" none none (some "mp4") :=
  ⟨rfl, cdn_url_deterministic "demo" (storeLookup sampleVideoStore) "vid9" "vid9"
    none none (some "mp4") none none (some "mp4") rfl rfl rfl rfl⟩

/-- C2 counterexample: the identifier `vid9` resolves in the store to a
record of resourceKind video, yet because `vid9` does not start with the
`uploadsx/` folder marker the short-circuiting check on line 66 never
consults the store and the constructed URL uses the image upload-path
segment, not `.../video/upload/q_auto,f_mp4/vid9` as the claim states. -/
theorem cdn_video_kind_ignored_without_folder :
    findByIdentifier sampleVideoStore "vid9" = some sampleVideoRecord ∧
    sampleVideoRecord.resourceType = "video" ∧
    buildUpstreamUrl "demo" (storeLookup sampleVideoStore) "vid9" none none (some "mp4")
      = Except.ok "https://res.cloudinary.com/demo/image/upload/q_auto,f_mp4/vid9" ∧
    ("https://res.cloudinary.com/demo/image/upload/q_auto,f_mp4/vid9" : String)
      ≠ "https://res.cloudinary.com/demo/video/upload/q_auto,f_mp4/vid9" := by
  refine ⟨rfl, rfl, rfl, ?_⟩
  decide

/-- C2 amended: when the identifier starts with `uploadsx/` and resolves in
the store to a record of resourceKind video, the constructed upstream URL
uses the video upload-path segment. -/
theorem cdn_video_path_with_folder_marker (cloudName : String) (lookup : StoreLookup)
    (pid : String) (w q f : Option String) (m : MediaRecord)
    (hpre : strStartsWith pid "uploadsx/" = true)
    (hlk : lookup pid = Except.ok (some m))
    (hkind : m.resourceType = "video") :
    resolveIsVideo lookup pid = Except.ok true ∧
    ∃ rest, buildUpstreamUrl cloudName lookup pid w q f
      = Except.ok ("https://res.cloudinary.com/"
          ++ (cloudName ++ ("/video/upload/" ++ rest))) := by
  have hres : resolveIsVideo lookup pid = Except.ok true := by
    unfold resolveIsVideo
    simp [hpre, hlk, hkind]
  refine ⟨hres, transformSegment w q f ++ ("/" ++ pid), ?_⟩
  unfold buildUpstreamUrl
  rw [hres]
  unfold cdnFullUrl cdnBaseUrl
  simp [String.append_assoc]

/-- Witness for amended C2: `GET /cdn/uploadsx/vid9?f=mp4` against a store
resolving that identifier to video builds a `/video/upload/` URL. -/
theorem cdn_video_path_with_folder_marker_witness :
    strStartsWith "uploadsx/vid9" "uploadsx/" = true ∧
    storeLookup [prefixedVideoRecord] "uploadsx/vid9"
      = Except.ok (some prefixedVideoRecord) ∧
    prefixedVideoRecord.resourceType = "video" ∧
    (resolveIsVideo (storeLookup [prefixedVideoRecord]) "uploadsx/vid9"
        = Except.ok true ∧
      ∃ rest, buildUpstreamUrl "demo" (storeLookup [prefixedVideoRecord])
          "uploadsx/vid9" none none (some "mp4")
        = Except.ok ("https://res.cloudinary.com/"
            ++ ("demo" ++ ("/video/upload/" ++ rest)))) :=
  ⟨rfl, rfl, rfl,
    cdn_video_path_with_folder_marker "demo" (storeLookup [prefixedVideoRecord])
      "uploadsx/vid9" none none (some "mp4") prefixedVideoRecord rfl rfl rfl⟩

/-- C3 counterexample: with the non-positive width `-5` the handler does not
respond 400; the asset origin stub used here succeeds only on the exact URL
carrying the invalid directive `w_-5`, so the successful outcome proves the
network request was made with the unvalidated width passed through. -/
theorem cdn_invalid_width_not_rejected :
    cdnHandler "demo" (storeLookup [])
      (fetchOnly "https://res.cloudinary.com/demo/image/upload/w_-5,q_auto,f_auto/pic"
        ⟨200, some "image/png", [7]⟩)
      "pic" (some "-5") none none
      = CdnResult.success "image/png" cdnCacheControl "*" [7] := by
  rfl

/-- C3 amended: the handler performs no width validation; it never answers a
400-status failure (all failures are 404), and any present non-empty width
value, well-formed or not, is forwarded verbatim as a `w_` directive inside
the constructed upstream URL before the fetch is issued. -/
theorem cdn_no_width_validation (cloudName : String) (lookup : StoreLookup)
    (fetchFn : Fetcher) (pid : String) (w q f : Option String) :
    (∀ s b, cdnHandler cloudName lookup fetchFn pid w q f
        = CdnResult.failure s b → s = 404) ∧
    (∀ v, w = some v → v ≠ "" → ∀ isVideo : Bool, ∃ pre post,
        cdnFullUrl cloudName isVideo pid w q f = pre ++ (("w_" ++ v) ++ post)) := by
  constructor
  · intro s b h
    unfold cdnHandler at h
    split at h
    · injection h with h1 _
      exact h1.symm
    · split at h
      · injection h with h1 _
        exact h1.symm
      · split at h
        · exact CdnResult.noConfusion h
        · injection h with h1 _
          exact h1.symm
  · intro v hv hne isVideo
    refine ⟨cdnBaseUrl cloudName isVideo,
      ("," ++ joinComma ["q_" ++ qualityValue q, "f_" ++ formatValue f])
        ++ ("/" ++ pid), ?_⟩
    subst hv
    unfold cdnFullUrl transformSegment transformations widthDirectives
    simp [hne, joinComma, String.append_assoc]

/-- Witness for amended C3 at the concrete width `-5`. -/
theorem cdn_no_width_validation_witness :
    (∀ s b, cdnHandler "demo" (storeLookup [])
        (fetchOnly "https://res.cloudinary.com/demo/image/upload/w_-5,q_auto,f_auto/pic"
          ⟨200, some "image/png", [7]⟩)
        "pic" (some "-5") none none
        = CdnResult.failure s b → s = 404) ∧
    (∀ v, (some "-5" : Option String) = some v → v ≠ "" → ∀ isVideo : Bool,
      ∃ pre post,
        cdnFullUrl "demo" isVideo "pic" (some "-5") none none
          = pre ++ (("w_" ++ v) ++ post)) :=
  cdn_no_width_validation "demo" (storeLookup [])
    (fetchOnly "https://res.cloudinary.com/demo/image/upload/w_-5,q_auto,f_auto/pic"
      ⟨200, some "image/png", [7]⟩)
    "pic" (some "-5") none none

/-- C4: when the upstream GET yields a response whose status is outside the
success range, the handler responds 404 with the short fixed plain-text
body; no success constructor (hence no asset bytes and no success headers)
is produced. -/
theorem cdn_upstream_error_responds_404 (cloudName : String) (lookup : StoreLookup)
    (fetchFn : Fetcher) (pid : String) (w q f : Option String)
    (isVideo : Bool) (resp : UpstreamResponse)
    (hres : resolveIsVideo lookup pid = Except.ok isVideo)
    (hfetch : fetchFn (cdnFullUrl cloudName isVideo pid w q f) = Except.ok resp)
    (hstatus : responseOk resp = false) :
    cdnHandler cloudName lookup fetchFn pid w q f
      = CdnResult.failure 404 cdnErrorBody := by
  simp [cdnHandler, hres, hfetch, hstatus]

/-- Witness for C4: a 404 upstream response at the built URL makes the
handler answer the fixed 404. -/
theorem cdn_upstream_error_responds_404_witness :
    resolveIsVideo (storeLookup []) "missing" = Except.ok false ∧
    fetchOnly "https://res.cloudinary.com/demo/image/upload/q_auto,f_auto/missing"
        ⟨404, none, []⟩
        (cdnFullUrl "demo" false "missing" none none none)
      = Except.ok ⟨404, none, []⟩ ∧
    responseOk ⟨404, none, []⟩ = false ∧
    cdnHandler "demo" (storeLookup [])
        (fetchOnly "https://res.cloudinary.com/demo/image/upload/q_auto,f_auto/missing"
          ⟨404, none, []⟩)
        "missing" none none none
      = CdnResult.failure 404 cdnErrorBody :=
  ⟨rfl, rfl, rfl,
    cdn_upstream_error_responds_404 "demo" (storeLookup [])
      (fetchOnly "https://res.cloudinary.com/demo/image/upload/q_auto,f_auto/missing"
        ⟨404, none, []⟩)
      "missing" none none none false ⟨404, none, []⟩ rfl rfl rfl⟩

/-- C5 counterexample: the identifier `vid9` resolves in the store to
resourceKind video, the upstream succeeds without a content-type header,
and yet the handler falls back to `image/jpeg`, not `video/mp4` as the
claim states, because line 66 never consults the store for identifiers
lacking the `uploadsx/` folder marker. -/
theorem cdn_fallback_ignores_stored_kind :
    findByIdentifier sampleVideoStore "vid9" = some sampleVideoRecord ∧
    sampleVideoRecord.resourceType = "video" ∧
    cdnHandler "demo" (storeLookup sampleVideoStore)
        (fetchOnly "https://res.cloudinary.com/demo/image/upload/q_auto,f_auto/vid9"
          ⟨200, none, [1, 2]⟩)
        "vid9" none none none
      = CdnResult.success "image/jpeg" cdnCacheControl "*" [1, 2] ∧
    ("image/jpeg" : String) ≠ "video/mp4" := by
  refine ⟨rfl, rfl, rfl, ?_⟩
  decide

/-- C5 amended: on upstream success the client body is byte-identical to
the upstream body, and the Content-Type equals the upstream content-type
header when the upstream supplies a non-empty one; otherwise it is
`video/mp4` when the handler resolved the kind to video (identifier carries
the `uploadsx/` marker and the store record says video) and `image/jpeg` in
every other case. -/
theorem cdn_content_type_selection (cloudName : String) (lookup : StoreLookup)
    (fetchFn : Fetcher) (pid : String) (w q f : Option String)
    (isVideo : Bool) (resp : UpstreamResponse)
    (hres : resolveIsVideo lookup pid = Except.ok isVideo)
    (hfetch : fetchFn (cdnFullUrl cloudName isVideo pid w q f) = Except.ok resp)
    (hok : responseOk resp = true) :
    (∀ c, resp.contentType = some c → c ≠ "" →
      cdnHandler cloudName lookup fetchFn pid w q f
        = CdnResult.success c cdnCacheControl "*" resp.body) ∧
    (resp.contentType = none →
      cdnHandler cloudName lookup fetchFn pid w q f
        = CdnResult.success (if isVideo then "video/mp4" else "image/jpeg")
            cdnCacheControl "*" resp.body) := by
  constructor
  · intro c hc hne
    simp [cdnHandler, hres, hfetch, hok, chooseContentType, hc, hne]
  · intro hc
    simp [cdnHandler, hres, hfetch, hok, chooseContentType, hc]

/-- Witness for amended C5: an upstream `content-type: image/png` with body
bytes `[1, 2, 3]` reaches the client verbatim. -/
theorem cdn_content_type_selection_witness :
    resolveIsVideo (storeLookup []) "pic7" = Except.ok false ∧
    fetchOnly "https://res.cloudinary.com/demo/image/upload/q_auto,f_auto/pic7"
        ⟨200, some "image/png", [1, 2, 3]⟩
        (cdnFullUrl "demo" false "pic7" none none none)
      = Except.ok ⟨200, some "image/png", [1, 2, 3]⟩ ∧
    responseOk ⟨200, some "image/png", [1, 2, 3]⟩ = true ∧
    (UpstreamResponse.contentType ⟨200, some "image/png", [1, 2, 3]⟩
      = some "image/png") ∧
    ("image/png" : String) ≠ "" ∧
    cdnHandler "demo" (storeLookup [])
        (fetchOnly "https://res.cloudinary.com/demo/image/upload/q_auto,f_auto/pic7"
          ⟨200, some "image/png", [1, 2, 3]⟩)
        "pic7" none none none
      = CdnResult.success "image/png" cdnCacheControl "*"
          (UpstreamResponse.body ⟨200, some "image/png", [1, 2, 3]⟩) :=
  ⟨rfl, rfl, rfl, rfl, by decide,
    (cdn_content_type_selection "demo" (storeLookup [])
      (fetchOnly "https://res.cloudinary.com/demo/image/upload/q_auto,f_auto/pic7"
        ⟨200, some "image/png", [1, 2, 3]⟩)
      "pic7" none none none false ⟨200, some "image/png", [1, 2, 3]⟩
      rfl rfl rfl).1 "image/png" rfl (by decide)⟩

/-- C9: each throwing step before body streaming maps to the one fixed 404
plain-text response: a failing store lookup yields it, a failing network
fetch yields it, and a non-success upstream status yields it; moreover every
outcome of the handler is either that fixed 404 or a streamed success
carrying the cache and CORS headers, so the proxy route never answers 500
and never lets an exception propagate. -/
theorem cdn_prestream_throws_map_to_404 (cloudName : String) (lookup : StoreLookup)
    (fetchFn : Fetcher) (pid : String) (w q f : Option String) :
    (∀ e, resolveIsVideo lookup pid = Except.error e →
      cdnHandler cloudName lookup fetchFn pid w q f
        = CdnResult.failure 404 cdnErrorBody) ∧
    (∀ isVideo e, resolveIsVideo lookup pid = Except.ok isVideo →
      fetchFn (cdnFullUrl cloudName isVideo pid w q f) = Except.error e →
      cdnHandler cloudName lookup fetchFn pid w q f
        = CdnResult.failure 404 cdnErrorBody) ∧
    (∀ isVideo resp, resolveIsVideo lookup pid = Except.ok isVideo →
      fetchFn (cdnFullUrl cloudName isVideo pid w q f) = Except.ok resp →
      responseOk resp = false →
      cdnHandler cloudName lookup fetchFn pid w q f
        = CdnResult.failure 404 cdnErrorBody) ∧
    (cdnHandler cloudName lookup fetchFn pid w q f
        = CdnResult.failure 404 cdnErrorBody ∨
      ∃ ct body, cdnHandler cloudName lookup fetchFn pid w q f
        = CdnResult.success ct cdnCacheControl "*" body) := by
  refine ⟨?_, ?_, ?_, ?_⟩
  · intro e he
    simp [cdnHandler, he]
  · intro isVideo e hres hfetch
    simp [cdnHandler, hres, hfetch]
  · intro isVideo resp hres hfetch hok
    simp [cdnHandler, hres, hfetch, hok]
  · cases hres : resolveIsVideo lookup pid with
    | error e => exact Or.inl (by simp [cdnHandler, hres])
    | ok isVideo =>
      cases hfetch : fetchFn (cdnFullUrl cloudName isVideo pid w q f) with
      | error e => exact Or.inl (by simp [cdnHandler, hres, hfetch])
      | ok resp =>
        by_cases hok : responseOk resp = true
        · exact Or.inr ⟨chooseContentType resp.contentType isVideo, resp.body,
            by simp [cdnHandler, hres, hfetch, hok]⟩
        · exact Or.inl (by simp [cdnHandler, hres, hfetch, hok])

/-- Witness for C9: a failing store lookup on a prefixed identifier lands in
the fixed 404 response. -/
theorem cdn_prestream_throws_map_to_404_witness :
    resolveIsVideo failLookup "uploadsx/x" = Except.error "db down" ∧
    cdnHandler "demo" failLookup
        (fetchOnly "unused" ⟨200, none, []⟩) "uploadsx/x" none none none
      = CdnResult.failure 404 cdnErrorBody :=
  ⟨rfl,
    (cdn_prestream_throws_map_to_404 "demo" failLookup
      (fetchOnly "unused" ⟨200, none, []⟩) "uploadsx/x" none none none).1
      "db down" rfl⟩

/-- C8: after a successful delete of a record (the store having pairwise
distinct Mongo ids and pairwise distinct identifiers, as Mongo and the
upload flow maintain), a subsequent findByIdentifier lookup for its
identifier returns nothing, and the stat aggregates drop by exactly that
record: total count by one, the count of its kind by one (other kinds
unchanged) and the byte total by its size. -/
theorem delete_removes_from_lookup_and_stats (store : MediaStore)
    (destroy : Destroyer) (m : MediaRecord)
    (hm : m ∈ store)
    (hids : store.Pairwise (fun x y => x.id ≠ y.id))
    (hpids : store.Pairwise (fun x y => x.publicId ≠ y.publicId))
    (hdestroy : destroy m.publicId m.resourceType = Except.ok ()) :
    (deleteMedia store destroy m.id).2 = ⟨200, true⟩ ∧
    findByIdentifier (deleteMedia store destroy m.id).1 m.publicId = none ∧
    countDocuments (deleteMedia store destroy m.id).1 + 1 = countDocuments store ∧
    countByKind (deleteMedia store destroy m.id).1 m.resourceType + 1
      = countByKind store m.resourceType ∧
    (∀ k, k ≠ m.resourceType →
      countByKind (deleteMedia store destroy m.id).1 k = countByKind store k) ∧
    totalSize (deleteMedia store destroy m.id).1 + m.size = totalSize store := by
  have hfind : findById store m.id = some m := by
    unfold findById
    cases hfo : store.find? (fun x => x.id == m.id) with
    | none =>
        exfalso
        have := List.find?_eq_none.mp hfo m hm
        simp at this
    | some a =>
        have pa := List.find?_some hfo
        have hamem : a ∈ store := List.mem_of_find?_eq_some hfo
        have : a = m := record_eq_of_id_eq hids hamem hm (by simpa using pa)
        exact congrArg some this
  have hdel : deleteMedia store destroy m.id
      = (store.eraseP (fun x => x.id == m.id), ⟨200, true⟩) := by
    simp [deleteMedia, hfind, hdestroy]
  obtain ⟨a, l1, l2, hno, pa, hdecomp, herase⟩ :=
    List.exists_of_eraseP (p := fun x => x.id == m.id) hm (by simp)
  have hamem : a ∈ store := by rw [hdecomp]; simp
  have haeq : a = m := record_eq_of_id_eq hids hamem hm (by simpa using pa)
  subst haeq
  rw [hdel]
  have hpids2 := hdecomp ▸ hpids
  have hsplit := List.pairwise_append.mp hpids2
  refine ⟨rfl, ?_, ?_, ?_, ?_, ?_⟩
  · unfold findByIdentifier
    rw [herase]
    rw [List.find?_eq_none]
    intro x hx
    rcases List.mem_append.mp hx with h1 | h2
    · have hne := hsplit.2.2 x h1 a (List.mem_cons_self a l2)
      simp [hne]
    · have hne := List.rel_of_pairwise_cons hsplit.2.1 h2
      simp [Ne.symm hne]
  · rw [herase, hdecomp]
    simp only [countDocuments, List.length_append, List.length_cons]
    omega
  · rw [herase, hdecomp]
    simp [countByKind, List.filter_append, List.filter_cons]
    omega
  · intro k hk
    rw [herase, hdecomp]
    have hbeq : (a.resourceType == k) = false := by
      simp [Ne.symm hk]
    simp [countByKind, List.filter_append, List.filter_cons, hbeq]
  · rw [herase, hdecomp]
    simp only [totalSize, List.map_append, List.map_cons, List.sum_append,
      List.sum_cons]
    omega

/-- Witness for C8: deleting the stored video from a two-record store. -/
theorem delete_removes_from_lookup_and_stats_witness :
    sampleVideoRecord ∈ twoRecordStore ∧
    twoRecordStore.Pairwise (fun x y => x.id ≠ y.id) ∧
    twoRecordStore.Pairwise (fun x y => x.publicId ≠ y.publicId) ∧
    okDestroy sampleVideoRecord.publicId sampleVideoRecord.resourceType
      = Except.ok () ∧
    ((deleteMedia twoRecordStore okDestroy sampleVideoRecord.id).2 = ⟨200, true⟩ ∧
      findByIdentifier (deleteMedia twoRecordStore okDestroy sampleVideoRecord.id).1
          sampleVideoRecord.publicId = none ∧
      countDocuments (deleteMedia twoRecordStore okDestroy sampleVideoRecord.id).1 + 1
        = countDocuments twoRecordStore ∧
      countByKind (deleteMedia twoRecordStore okDestroy sampleVideoRecord.id).1
          sampleVideoRecord.resourceType + 1
        = countByKind twoRecordStore sampleVideoRecord.resourceType ∧
      (∀ k, k ≠ sampleVideoRecord.resourceType →
        countByKind (deleteMedia twoRecordStore okDestroy sampleVideoRecord.id).1 k
          = countByKind twoRecordStore k) ∧
      totalSize (deleteMedia twoRecordStore okDestroy sampleVideoRecord.id).1
          + sampleVideoRecord.size
        = totalSize twoRecordStore) :=
  ⟨by decide, by decide, by decide, rfl,
    delete_removes_from_lookup_and_stats twoRecordStore okDestroy sampleVideoRecord
      (by decide) (by decide) (by decide) rfl⟩

/-- C10: the record is removed from the store only after the asset-origin
destroy call completes; when that call throws, the handler responds 500 and
the store is returned unchanged, the record still in place. -/
theorem delete_atomic_on_origin_failure (store : MediaStore) (destroy : Destroyer)
    (id e : String) (m : MediaRecord)
    (hfind : findById store id = some m)
    (hdestroy : destroy m.publicId m.resourceType = Except.error e) :
    deleteMedia store destroy id = (store, ⟨500, false⟩) := by
  simp [deleteMedia, hfind, hdestroy]

/-- Witness for C10: a throwing destroy call leaves the two-record store
unchanged and yields status 500. -/
theorem delete_atomic_on_origin_failure_witness :
    findById twoRecordStore "mid1" = some sampleVideoRecord ∧
    failDestroy sampleVideoRecord.publicId sampleVideoRecord.resourceType
      = Except.error "origin down" ∧
    deleteMedia twoRecordStore failDestroy "mid1"
      = (twoRecordStore, ⟨500, false⟩) :=
  ⟨rfl, rfl,
    delete_atomic_on_origin_failure twoRecordStore failDestroy "mid1" "origin down"
      sampleVideoRecord rfl rfl⟩
